import Mathlib

/-!
Verification of the AMD GPU binary metrics decoder of waysensor-rs
(`sensors/amd-gpu/src/metrics.rs` and the recovery logic of
`sensors/amd-gpu/src/gpu.rs`), as a shallow embedding.

Bytes are modelled as `Nat` (each entry a byte value), machine integers as
`Nat`.  Fallible Rust code returning `Result<_, SensorError>` is modelled as
`Except GpuError _`; an out-of-bounds slice index (a Rust panic) is modelled
as the distinguished outcome `GpuError.indexOutOfBounds`, so that
panic-freedom is a provable statement rather than an assumption.
-/

namespace Waysensor

/-- Little-endian u16 at `off`, total version (out-of-range bytes read as 0).
Used only to state normal forms; the fallible model is `read_u16_le`. -/
def u16at (data : List Nat) (off : Nat) : Nat :=
  data.getD off 0 + 256 * data.getD (off + 1) 0

/-- Little-endian u64 at `off`, total version. -/
def u64at (data : List Nat) (off : Nat) : Nat :=
  data.getD off 0
  + 256 ^ 1 * data.getD (off + 1) 0
  + 256 ^ 2 * data.getD (off + 2) 0
  + 256 ^ 3 * data.getD (off + 3) 0
  + 256 ^ 4 * data.getD (off + 4) 0
  + 256 ^ 5 * data.getD (off + 5) 0
  + 256 ^ 6 * data.getD (off + 6) 0
  + 256 ^ 7 * data.getD (off + 7) 0

/-- Errors produced by the reader (`GpuError::MetricsParsingError { reason }`
plus I/O failures); `indexOutOfBounds` models a Rust slice-indexing panic. -/
inductive GpuError where
  | ioError : GpuError
  | indexOutOfBounds : GpuError
  | metricsParsing (reason : String) : GpuError
deriving Repr, DecidableEq

/-- `read_u16_le` (metrics.rs:864): `u16::from_le_bytes([data[offset],
data[offset+1]])`; indexing out of bounds panics. -/
def read_u16_le (data : List Nat) (off : Nat) : Except GpuError Nat :=
  if off + 1 < data.length then .ok (u16at data off)
  else .error .indexOutOfBounds

/-- `read_u64_le` (metrics.rs:869): eight-byte little-endian read;
indexing out of bounds panics. -/
def read_u64_le (data : List Nat) (off : Nat) : Except GpuError Nat :=
  if off + 7 < data.length then .ok (u64at data off)
  else .error .indexOutOfBounds

/-- The `for i in 0..count { out[i] = read_u16_le(data, off + i*2) }` loops of
the v2 parser (and the v1 `vcn_activity` loop), as a recursive reader. -/
def read_u16_le_array (data : List Nat) (off count : Nat) :
    Except GpuError (List Nat) :=
  match count with
  | 0 => .ok []
  | n + 1 => do
    let v ← read_u16_le data off
    let rest ← read_u16_le_array data (off + 2) n
    pure (v :: rest)

/-- Total counterpart of `read_u16_le_array`, for normal forms. -/
def u16array (data : List Nat) (off count : Nat) : List Nat :=
  match count with
  | 0 => []
  | n + 1 => u16at data off :: u16array data (off + 2) n

/-- Header of the gpu_metrics blob (metrics.rs:17). -/
structure Header where
  structure_size : Nat
  format_revision : Nat
  content_revision : Nat
deriving Repr, DecidableEq

/-- `Header::version` (metrics.rs:25): renders `"vX.Y"`. -/
def Header.version (h : Header) : String :=
  "v" ++ toString h.format_revision ++ "." ++ toString h.content_revision

/-- `Header::is_supported` (metrics.rs:30): `matches!((format_revision,
content_revision), (1, 0..=3) | (2, 0..=1) | (3, 0))`. -/
def Header.is_supported (h : Header) : Bool :=
  decide ((h.format_revision = 1 ∧ h.content_revision ≤ 3)
    ∨ (h.format_revision = 2 ∧ h.content_revision ≤ 1)
    ∨ (h.format_revision = 3 ∧ h.content_revision = 0))

/-- `ThrottleStatus::THROTTLE_FLAGS` (metrics.rs:140): the static table of 13
named bit positions. -/
def THROTTLE_FLAGS : List (String × Nat) :=
  [("PROCHOT_CPU", 2 ^ 0),
   ("PROCHOT_GFX", 2 ^ 1),
   ("PPT0", 2 ^ 16),
   ("PPT1", 2 ^ 17),
   ("PPT2", 2 ^ 18),
   ("PPT3", 2 ^ 19),
   ("SPL", 2 ^ 20),
   ("FPPT", 2 ^ 21),
   ("SPPT", 2 ^ 22),
   ("SPPT_APU", 2 ^ 23),
   ("THM_CORE", 2 ^ 32),
   ("THM_GFX", 2 ^ 33),
   ("THM_SOC", 2 ^ 34)]

/-- `ThrottleStatus::is_throttling` (metrics.rs:157): `self.0 != 0`. -/
def ThrottleStatus.is_throttling (v : Nat) : Bool :=
  v != 0

/-- `ThrottleStatus::active_flags` (metrics.rs:162): names of table entries
whose bit is set in the status word. -/
def ThrottleStatus.active_flags (v : Nat) : List String :=
  (THROTTLE_FLAGS.filter (fun p => decide (v &&& p.2 ≠ 0))).map Prod.fst

/-- `ThrottleStatus::severity` (metrics.rs:173): active named flags over the
table size.  The Rust code computes the ratio in `f64`; it is modelled as the
exact rational, which represents the same mathematical quantity. -/
def ThrottleStatus.severity (v : Nat) : ℚ :=
  ((ThrottleStatus.active_flags v).length : ℚ) / (THROTTLE_FLAGS.length : ℚ)

/-- `GpuMetricsV1` (metrics.rs:194): the v1.x record.  Fixed-width arrays are
modelled as lists; optional later-revision fields are `Option`. -/
structure GpuMetricsV1 where
  header : Header
  system_clock_counter : Nat
  temperature_edge : Nat
  temperature_hotspot : Nat
  temperature_mem : Nat
  temperature_vrgfx : Nat
  temperature_vrsoc : Nat
  temperature_vrmem : Nat
  average_gfx_activity : Nat
  average_umc_activity : Nat
  average_mm_activity : Nat
  average_socket_power : Nat
  energy_accumulator : Nat
  average_gfxclk_frequency : Nat
  average_socclk_frequency : Nat
  average_uclk_frequency : Nat
  average_vclk0_frequency : Nat
  average_dclk0_frequency : Nat
  average_vclk1_frequency : Nat
  average_dclk1_frequency : Nat
  current_gfxclk : Nat
  current_socclk : Nat
  current_uclk : Nat
  current_vclk0 : Nat
  current_dclk0 : Nat
  current_vclk1 : Nat
  current_dclk1 : Nat
  throttle_status : Nat
  current_fan_speed : Nat
  pcie_link_width : Nat
  pcie_link_speed : Nat
  gfx_voltage : Option Nat
  soc_voltage : Option Nat
  mem_voltage : Option Nat
  indep_throttle_status : Option Nat
  current_socket_power : Option Nat
  vcn_activity : Option (List Nat)
deriving Repr, DecidableEq

/-- `GpuMetricsV2` (metrics.rs:350): the v2.x record. -/
structure GpuMetricsV2 where
  header : Header
  system_clock_counter : Nat
  temperature_gfx : Nat
  temperature_soc : Nat
  temperature_core : List Nat
  temperature_l3 : List Nat
  average_gfx_activity : Nat
  average_mm_activity : Nat
  average_socket_power : Nat
  average_cpu_power : Nat
  average_soc_power : Nat
  average_gfx_power : Nat
  average_core_power : List Nat
  average_gfxclk_frequency : Nat
  average_socclk_frequency : Nat
  average_uclk_frequency : Nat
  average_fclk_frequency : Nat
  average_vclk_frequency : Nat
  average_dclk_frequency : Nat
  current_gfxclk : Nat
  current_socclk : Nat
  current_uclk : Nat
  current_fclk : Nat
  current_vclk : Nat
  current_dclk : Nat
  current_coreclk : List Nat
  current_l3clk : List Nat
  throttle_status : Nat
  fan_pwm : Nat
  voltage_soc : Option Nat
  voltage_gfx : Option Nat
  voltage_mem : Option Nat
deriving Repr, DecidableEq

/-- The boxed `dyn GpuMetrics` trait object, as a sum of the concrete
records. -/
inductive Metrics where
  | v1 : GpuMetricsV1 → Metrics
  | v2 : GpuMetricsV2 → Metrics
deriving Repr, DecidableEq

/-- `get_temperature` of the `GpuMetrics` trait: `(temperature_edge, "Edge")`
for v1 (metrics.rs:238), `(temperature_gfx, "GFX")` for v2 (metrics.rs:387). -/
def Metrics.get_temperature : Metrics → Nat × String
  | .v1 m => (m.temperature_edge, "Edge")
  | .v2 m => (m.temperature_gfx, "GFX")

/-- `MetricsReader::parse_v1_metrics` (metrics.rs:689). -/
def parse_v1_metrics (header : Header) (data : List Nat) :
    Except GpuError Metrics :=
  if data.length < 92 then
    .error (.metricsParsing "Insufficient data for v1.x metrics")
  else do
    let system_clock_counter ← read_u64_le data 0
    let temperature_edge ← read_u16_le data 8
    let temperature_hotspot ← read_u16_le data 10
    let temperature_mem ← read_u16_le data 12
    let temperature_vrgfx ← read_u16_le data 14
    let temperature_vrsoc ← read_u16_le data 16
    let temperature_vrmem ← read_u16_le data 18
    let average_gfx_activity ← read_u16_le data 20
    let average_umc_activity ← read_u16_le data 22
    let average_mm_activity ← read_u16_le data 24
    let average_socket_power ← read_u16_le data 26
    let energy_accumulator ← read_u64_le data 28
    let average_gfxclk_frequency ← read_u16_le data 36
    let average_socclk_frequency ← read_u16_le data 38
    let average_uclk_frequency ← read_u16_le data 40
    let average_vclk0_frequency ← read_u16_le data 42
    let average_dclk0_frequency ← read_u16_le data 44
    let average_vclk1_frequency ← read_u16_le data 46
    let average_dclk1_frequency ← read_u16_le data 48
    let current_gfxclk ← read_u16_le data 50
    let current_socclk ← read_u16_le data 52
    let current_uclk ← read_u16_le data 54
    let current_vclk0 ← read_u16_le data 56
    let current_dclk0 ← read_u16_le data 58
    let current_vclk1 ← read_u16_le data 60
    let current_dclk1 ← read_u16_le data 62
    let throttle_status ← read_u64_le data 64
    let current_fan_speed ← read_u16_le data 72
    let pcie_link_width ← read_u16_le data 74
    let pcie_link_speed ← read_u16_le data 76
    let base : GpuMetricsV1 :=
      { header := header
        system_clock_counter := system_clock_counter
        temperature_edge := temperature_edge
        temperature_hotspot := temperature_hotspot
        temperature_mem := temperature_mem
        temperature_vrgfx := temperature_vrgfx
        temperature_vrsoc := temperature_vrsoc
        temperature_vrmem := temperature_vrmem
        average_gfx_activity := average_gfx_activity
        average_umc_activity := average_umc_activity
        average_mm_activity := average_mm_activity
        average_socket_power := average_socket_power
        energy_accumulator := energy_accumulator
        average_gfxclk_frequency := average_gfxclk_frequency
        average_socclk_frequency := average_socclk_frequency
        average_uclk_frequency := average_uclk_frequency
        average_vclk0_frequency := average_vclk0_frequency
        average_dclk0_frequency := average_dclk0_frequency
        average_vclk1_frequency := average_vclk1_frequency
        average_dclk1_frequency := average_dclk1_frequency
        current_gfxclk := current_gfxclk
        current_socclk := current_socclk
        current_uclk := current_uclk
        current_vclk0 := current_vclk0
        current_dclk0 := current_dclk0
        current_vclk1 := current_vclk1
        current_dclk1 := current_dclk1
        throttle_status := throttle_status
        current_fan_speed := current_fan_speed
        pcie_link_width := pcie_link_width
        pcie_link_speed := pcie_link_speed
        gfx_voltage := none
        soc_voltage := none
        mem_voltage := none
        indep_throttle_status := none
        current_socket_power := none
        vcn_activity := none }
    let m1 ←
      if header.content_revision ≥ 1 ∧ data.length ≥ 82 then do
        let gfx_voltage ← read_u16_le data 78
        let soc_voltage ← read_u16_le data 80
        pure { base with gfx_voltage := some gfx_voltage,
                         soc_voltage := some soc_voltage }
      else pure base
    let m2 ←
      if header.content_revision ≥ 2 ∧ data.length ≥ 90 then do
        let mem_voltage ← read_u16_le data 82
        let indep ← read_u64_le data 84
        pure { m1 with mem_voltage := some mem_voltage,
                       indep_throttle_status := some indep }
      else pure m1
    let m3 ←
      if header.content_revision ≥ 3 ∧ data.length ≥ 102 then do
        let current_socket_power ← read_u16_le data 92
        let vcn ← read_u16_le_array data 94 4
        pure { m2 with current_socket_power := some current_socket_power,
                       vcn_activity := some vcn }
      else pure m2
    pure (Metrics.v1 m3)

/-- `MetricsReader::parse_v2_metrics` (metrics.rs:760). -/
def parse_v2_metrics (header : Header) (data : List Nat) :
    Except GpuError Metrics :=
  if data.length < 116 then
    .error (.metricsParsing "Insufficient data for v2.x metrics")
  else do
    let temperature_core ← read_u16_le_array data 16 8
    let temperature_l3 ← read_u16_le_array data 32 2
    let average_core_power ← read_u16_le_array data 54 8
    let current_coreclk ← read_u16_le_array data 84 8
    let current_l3clk ← read_u16_le_array data 100 2
    let system_clock_counter ← read_u64_le data 0
    let temperature_gfx ← read_u16_le data 8
    let temperature_soc ← read_u16_le data 10
    let average_gfx_activity ← read_u16_le data 36
    let average_mm_activity ← read_u16_le data 38
    let average_socket_power ← read_u16_le data 40
    let average_cpu_power ← read_u16_le data 42
    let average_soc_power ← read_u16_le data 44
    let average_gfx_power ← read_u16_le data 46
    let average_gfxclk_frequency ← read_u16_le data 70
    let average_socclk_frequency ← read_u16_le data 72
    let average_uclk_frequency ← read_u16_le data 74
    let average_fclk_frequency ← read_u16_le data 76
    let average_vclk_frequency ← read_u16_le data 78
    let average_dclk_frequency ← read_u16_le data 80
    let current_gfxclk ← read_u16_le data 82
    let current_socclk ← read_u16_le data 84
    let current_uclk ← read_u16_le data 86
    let current_fclk ← read_u16_le data 88
    let current_vclk ← read_u16_le data 90
    let current_dclk ← read_u16_le data 92
    let throttle_status ← read_u64_le data 104
    let fan_pwm ← read_u16_le data 112
    let base : GpuMetricsV2 :=
      { header := header
        system_clock_counter := system_clock_counter
        temperature_gfx := temperature_gfx
        temperature_soc := temperature_soc
        temperature_core := temperature_core
        temperature_l3 := temperature_l3
        average_gfx_activity := average_gfx_activity
        average_mm_activity := average_mm_activity
        average_socket_power := average_socket_power
        average_cpu_power := average_cpu_power
        average_soc_power := average_soc_power
        average_gfx_power := average_gfx_power
        average_core_power := average_core_power
        average_gfxclk_frequency := average_gfxclk_frequency
        average_socclk_frequency := average_socclk_frequency
        average_uclk_frequency := average_uclk_frequency
        average_fclk_frequency := average_fclk_frequency
        average_vclk_frequency := average_vclk_frequency
        average_dclk_frequency := average_dclk_frequency
        current_gfxclk := current_gfxclk
        current_socclk := current_socclk
        current_uclk := current_uclk
        current_fclk := current_fclk
        current_vclk := current_vclk
        current_dclk := current_dclk
        current_coreclk := current_coreclk
        current_l3clk := current_l3clk
        throttle_status := throttle_status
        fan_pwm := fan_pwm
        voltage_soc := none
        voltage_gfx := none
        voltage_mem := none }
    let m1 ←
      if header.content_revision ≥ 1 ∧ data.length ≥ 122 then do
        let voltage_soc ← read_u16_le data 114
        let voltage_gfx ← read_u16_le data 116
        let voltage_mem ← read_u16_le data 118
        pure { base with voltage_soc := some voltage_soc,
                         voltage_gfx := some voltage_gfx,
                         voltage_mem := some voltage_mem }
      else pure base
    pure (Metrics.v2 m1)

/-- `MetricsReader::parse_metrics_from_bytes` (metrics.rs:657): header
validation, supported-version check, and layout dispatch. -/
def parse_metrics_from_bytes (data : List Nat) : Except GpuError Metrics :=
  if data.length < 4 then
    .error (.metricsParsing "Insufficient data for header")
  else
    let header : Header :=
      { structure_size := u16at data 0
        format_revision := data.getD 2 0
        content_revision := data.getD 3 0 }
    if ¬ header.is_supported then
      .error (.metricsParsing
        ("Unsupported GPU metrics version: " ++ header.version))
    else
      match header.format_revision with
      | 1 => parse_v1_metrics header (data.drop 4)
      | 2 => parse_v2_metrics header (data.drop 4)
      | _ => .error (.metricsParsing
          ("Unsupported format version: v"
            ++ toString header.format_revision ++ "."
            ++ toString header.content_revision))

/-- `MetricsReader::read_direct` (metrics.rs:624): reads a 4-byte header,
validates `structure_size`, reads the body, and parses the combined bytes.
A short file makes `read_exact` fail, modelled as `ioError`.  For
`structure_size < 4` the Rust `structure_size as usize - 4` wraps to a huge
count whose buffer allocation/`read_exact` cannot succeed; that branch is
also modelled as `ioError`. -/
def read_direct (file : List Nat) : Except GpuError Metrics :=
  if file.length < 4 then
    .error .ioError
  else
    let structure_size := u16at file 0
    if structure_size = 0 ∨ 1024 < structure_size then
      .error (.metricsParsing
        ("Invalid structure size: " ++ toString structure_size))
    else
      let data_size := (structure_size + 2 ^ 64 - 4) % 2 ^ 64
      if file.length < 4 + data_size then
        .error .ioError
      else
        parse_metrics_from_bytes (file.take (4 + data_size))

/-- `MetricsReader::read_with_mmap` (metrics.rs:609): with an established
mapping, parses straight from the mapped bytes — no `structure_size`
validation happens on this path. -/
def read_with_mmap (mapped : List Nat) : Except GpuError Metrics :=
  parse_metrics_from_bytes mapped

/-- `CachedMetrics` (metrics.rs:505). -/
structure CachedMetrics where
  metrics : Metrics
  timestamp : Nat
  read_count : Nat
  last_validation : Nat
deriving Repr, DecidableEq

/-- `CacheStrategy` (gpu.rs / metrics.rs): the pluggable caching policy.
`aggressive`'s `change_threshold` is carried but never consulted. -/
inductive CacheStrategy where
  | noCache : CacheStrategy
  | basic (max_age : Nat) : CacheStrategy
  | aggressive (max_age : Nat) (change_threshold : Nat) : CacheStrategy
  | memoryMapped : CacheStrategy
deriving Repr, DecidableEq

/-- `MetricsReader::check_cache` (metrics.rs:563).  Time is an abstract tick
count (`Instant`); `elapsed` is `now - timestamp`.  The Rust function returns
`Result` but can never fail, so it is modelled as `Option`. -/
def check_cache (strategy : CacheStrategy) (cache : Option CachedMetrics)
    (now : Nat) : Option Metrics :=
  match strategy with
  | .noCache => none
  | .basic max_age =>
    match cache with
    | some cached => if now - cached.timestamp < max_age then some cached.metrics else none
    | none => none
  | .aggressive max_age _ =>
    match cache with
    | some cached => if now - cached.timestamp < max_age then some cached.metrics else none
    | none => none
  | .memoryMapped => none

/-- `MetricsReader::update_cache` (metrics.rs:592): under `None` the cache is
untouched; otherwise the entry is replaced wholesale. -/
def update_cache (strategy : CacheStrategy) (cache : Option CachedMetrics)
    (metrics : Metrics) (now : Nat) : Option CachedMetrics :=
  match strategy with
  | .noCache => cache
  | _ => some
      { metrics := metrics
        timestamp := now
        read_count := match cache with
          | none => 1
          | some c => c.read_count + 1
        last_validation := now }

/-- `MetricsReader::read_file` (metrics.rs:540), with the underlying
file/mmap read abstracted as the `fresh` outcome.  Returns the result, the
new cache slot, and whether the underlying read was performed. -/
def read_file (strategy : CacheStrategy) (cache : Option CachedMetrics)
    (now : Nat) (fresh : Except GpuError Metrics) :
    Except GpuError Metrics × Option CachedMetrics × Bool :=
  match check_cache strategy cache now with
  | some m => (.ok m, cache, false)
  | none =>
    match fresh with
    | .error e => (.error e, cache, true)
    | .ok m => (.ok m, update_cache strategy cache m now, true)

/-- The error-recovery state of `AmdgpuSensor` (gpu.rs): consecutive failure
count, time of last error, and the last successful metrics with its
timestamp. -/
structure SensorState where
  consecutive_errors : Nat
  last_error_time : Option Nat
  last_metrics : Option (Metrics × Nat)
deriving Repr, DecidableEq

/-- `Duration::from_secs(10)` of gpu.rs:489, in milliseconds. -/
def recovery_max_age : Nat := 10000

/-- `AmdgpuSensor::read_metrics_with_recovery` (gpu.rs:468), with the inner
`MetricsReader::read_file` call abstracted as the `underlying` outcome and
`Instant::now()` as `now`.  Returns the result and the new sensor state. -/
def read_metrics_with_recovery (s : SensorState)
    (underlying : Except GpuError Metrics) (now : Nat) :
    Except GpuError Metrics × SensorState :=
  match underlying with
  | .ok m =>
    (.ok m, { consecutive_errors := 0, last_error_time := none,
              last_metrics := some (m, now) })
  | .error e =>
    let s' : SensorState :=
      { s with consecutive_errors := s.consecutive_errors + 1,
               last_error_time := some now }
    if s'.consecutive_errors ≤ 3 then
      match s.last_metrics with
      | some (m, t) =>
        if now - t < recovery_max_age then (.ok m, s') else (.error e, s')
      | none => (.error e, s')
    else (.error e, s')

@[simp] theorem ok_bind {α β : Type} (a : α) (f : α → Except GpuError β) :
    (Except.ok a >>= f : Except GpuError β) = f a := rfl

/-- Normal form of `parse_v1_metrics` on sufficiently long input: the same
fields read by total little-endian accessors. -/
def v1_record (header : Header) (data : List Nat) : GpuMetricsV1 :=
  let base : GpuMetricsV1 :=
    { header := header
      system_clock_counter := u64at data 0
      temperature_edge := u16at data 8
      temperature_hotspot := u16at data 10
      temperature_mem := u16at data 12
      temperature_vrgfx := u16at data 14
      temperature_vrsoc := u16at data 16
      temperature_vrmem := u16at data 18
      average_gfx_activity := u16at data 20
      average_umc_activity := u16at data 22
      average_mm_activity := u16at data 24
      average_socket_power := u16at data 26
      energy_accumulator := u64at data 28
      average_gfxclk_frequency := u16at data 36
      average_socclk_frequency := u16at data 38
      average_uclk_frequency := u16at data 40
      average_vclk0_frequency := u16at data 42
      average_dclk0_frequency := u16at data 44
      average_vclk1_frequency := u16at data 46
      average_dclk1_frequency := u16at data 48
      current_gfxclk := u16at data 50
      current_socclk := u16at data 52
      current_uclk := u16at data 54
      current_vclk0 := u16at data 56
      current_dclk0 := u16at data 58
      current_vclk1 := u16at data 60
      current_dclk1 := u16at data 62
      throttle_status := u64at data 64
      current_fan_speed := u16at data 72
      pcie_link_width := u16at data 74
      pcie_link_speed := u16at data 76
      gfx_voltage := none
      soc_voltage := none
      mem_voltage := none
      indep_throttle_status := none
      current_socket_power := none
      vcn_activity := none }
  let m1 :=
    if header.content_revision ≥ 1 ∧ data.length ≥ 82 then
      { base with gfx_voltage := some (u16at data 78),
                  soc_voltage := some (u16at data 80) }
    else base
  let m2 :=
    if header.content_revision ≥ 2 ∧ data.length ≥ 90 then
      { m1 with mem_voltage := some (u16at data 82),
                indep_throttle_status := some (u64at data 84) }
    else m1
  let m3 :=
    if header.content_revision ≥ 3 ∧ data.length ≥ 102 then
      { m2 with current_socket_power := some (u16at data 92),
                vcn_activity := some (u16array data 94 4) }
    else m2
  m3

/-- Normal form of `parse_v2_metrics` on sufficiently long input. -/
def v2_record (header : Header) (data : List Nat) : GpuMetricsV2 :=
  let base : GpuMetricsV2 :=
    { header := header
      system_clock_counter := u64at data 0
      temperature_gfx := u16at data 8
      temperature_soc := u16at data 10
      temperature_core := u16array data 16 8
      temperature_l3 := u16array data 32 2
      average_gfx_activity := u16at data 36
      average_mm_activity := u16at data 38
      average_socket_power := u16at data 40
      average_cpu_power := u16at data 42
      average_soc_power := u16at data 44
      average_gfx_power := u16at data 46
      average_core_power := u16array data 54 8
      average_gfxclk_frequency := u16at data 70
      average_socclk_frequency := u16at data 72
      average_uclk_frequency := u16at data 74
      average_fclk_frequency := u16at data 76
      average_vclk_frequency := u16at data 78
      average_dclk_frequency := u16at data 80
      current_gfxclk := u16at data 82
      current_socclk := u16at data 84
      current_uclk := u16at data 86
      current_fclk := u16at data 88
      current_vclk := u16at data 90
      current_dclk := u16at data 92
      current_coreclk := u16array data 84 8
      current_l3clk := u16array data 100 2
      throttle_status := u64at data 104
      fan_pwm := u16at data 112
      voltage_soc := none
      voltage_gfx := none
      voltage_mem := none }
  if header.content_revision ≥ 1 ∧ data.length ≥ 122 then
    { base with voltage_soc := some (u16at data 114),
                voltage_gfx := some (u16at data 116),
                voltage_mem := some (u16at data 118) }
  else base

theorem read_u16_le_eq (data : List Nat) (off : Nat)
    (h : off + 1 < data.length) :
    read_u16_le data off = .ok (u16at data off) := by
  simp [read_u16_le, h]

theorem read_u64_le_eq (data : List Nat) (off : Nat)
    (h : off + 7 < data.length) :
    read_u64_le data off = .ok (u64at data off) := by
  simp [read_u64_le, h]

theorem read_u16_le_array_eq (data : List Nat) :
    ∀ (count off : Nat), off + 2 * count ≤ data.length → count ≠ 0 →
    read_u16_le_array data off count = .ok (u16array data off count) := by
  intro count
  induction count with
  | zero => intro off h hc; exact absurd rfl hc
  | succ n ih =>
    intro off h _
    rcases Nat.eq_zero_or_pos n with hn | hn
    · subst hn
      simp [read_u16_le_array, u16array, read_u16_le_eq data off (by omega)]
    · simp [read_u16_le_array, u16array, read_u16_le_eq data off (by omega),
        ih (off + 2) (by omega) (by omega)]

theorem parse_v1_metrics_eq (header : Header) (data : List Nat)
    (h : 92 ≤ data.length) :
    parse_v1_metrics header data = .ok (.v1 (v1_record header data)) := by
  have hlt : ¬ data.length < 92 := by omega
  by_cases h1 : header.content_revision ≥ 1 ∧ data.length ≥ 82 <;>
  by_cases h2 : header.content_revision ≥ 2 ∧ data.length ≥ 90 <;>
  by_cases h3 : header.content_revision ≥ 3 ∧ data.length ≥ 102 <;>
  simp (disch := omega) [parse_v1_metrics, v1_record, h1, h2, h3, hlt,
    read_u16_le_eq, read_u64_le_eq, read_u16_le_array_eq, ok_bind]

theorem parse_v2_metrics_eq (header : Header) (data : List Nat)
    (h : 116 ≤ data.length) :
    parse_v2_metrics header data = .ok (.v2 (v2_record header data)) := by
  have hlt : ¬ data.length < 116 := by omega
  by_cases h1 : header.content_revision ≥ 1 ∧ data.length ≥ 122 <;>
  simp (disch := omega) [parse_v2_metrics, v2_record, h1, hlt,
    read_u16_le_eq, read_u64_le_eq, read_u16_le_array_eq, ok_bind]

/-- The supported dispatch table named by the specification:
`(format_revision, content_revision)` in `(1, 0..=3) | (2, 0..=1)`. -/
def spec_supported_pair (f c : Nat) : Prop :=
  (f = 1 ∧ c ≤ 3) ∨ (f = 2 ∧ c ≤ 1)

/-- C1: for every input whose header version pair is outside
`{(1,0..=3), (2,0..=1)}`, `parse_metrics_from_bytes` fails with one of the
two "unsupported ... version" parse errors — it neither succeeds nor reaches
a layout parser (whose only outcomes are `.ok` or an
"Insufficient data for vN.x metrics" error), and never falls back to a
nearby version. -/
theorem c1_unsupported_pair_rejected (data : List Nat)
    (h4 : 4 ≤ data.length)
    (hn : ¬ spec_supported_pair (data.getD 2 0) (data.getD 3 0)) :
    parse_metrics_from_bytes data =
      .error (.metricsParsing ("Unsupported GPU metrics version: "
        ++ Header.version ⟨u16at data 0, data.getD 2 0, data.getD 3 0⟩))
  ∨ parse_metrics_from_bytes data =
      .error (.metricsParsing ("Unsupported format version: v"
        ++ toString (data.getD 2 0) ++ "." ++ toString (data.getD 3 0))) := by
  have hlt : ¬ data.length < 4 := by omega
  unfold spec_supported_pair at hn
  by_cases h30 : data.getD 2 0 = 3 ∧ data.getD 3 0 = 0
  · right
    obtain ⟨hf, hc⟩ := h30
    simp only [parse_metrics_from_bytes, if_neg hlt]
    rw [hf, hc]
    simp [Header.is_supported]
  · left
    have hsup : ¬ (Header.is_supported
        ⟨u16at data 0, data.getD 2 0, data.getD 3 0⟩ = true) := by
      intro h
      simp only [Header.is_supported, decide_eq_true_eq] at h
      tauto
    simp only [parse_metrics_from_bytes, if_neg hlt]
    rw [if_pos hsup]

/-- C1 witness: the concrete header `(4, 0, 9, 9)`. -/
theorem c1_unsupported_pair_rejected_witness :
    parse_metrics_from_bytes [4, 0, 9, 9] =
      .error (.metricsParsing ("Unsupported GPU metrics version: "
        ++ Header.version ⟨u16at [4, 0, 9, 9] 0, [4, 0, 9, 9].getD 2 0,
             [4, 0, 9, 9].getD 3 0⟩))
  ∨ parse_metrics_from_bytes [4, 0, 9, 9] =
      .error (.metricsParsing ("Unsupported format version: v"
        ++ toString ([4, 0, 9, 9].getD 2 0) ++ "."
        ++ toString ([4, 0, 9, 9].getD 3 0))) :=
  c1_unsupported_pair_rejected [4, 0, 9, 9] (by decide)
    (by unfold spec_supported_pair; simp)

/-- C2, corrected part: on the direct read path, a header whose
`structure_size` is `0` or greater than `1024` fails with a Parse error
naming the invalid size. -/
theorem c2_direct_rejects_bad_size (file : List Nat)
    (h4 : 4 ≤ file.length)
    (hbad : u16at file 0 = 0 ∨ 1024 < u16at file 0) :
    read_direct file = .error (.metricsParsing
      ("Invalid structure size: " ++ toString (u16at file 0))) := by
  have hlt : ¬ file.length < 4 := by omega
  simp only [read_direct, if_neg hlt, if_pos hbad]

/-- C2 witness: the all-zero 4-byte file. -/
theorem c2_direct_rejects_bad_size_witness :
    read_direct [0, 0, 0, 0] =
      .error (.metricsParsing ("Invalid structure size: "
        ++ toString (u16at [0, 0, 0, 0] 0))) :=
  c2_direct_rejects_bad_size [0, 0, 0, 0] (by decide) (Or.inl rfl)

/-- C2 counterexample: the claim fails on the memory-mapped read path.  A
96-byte mapped blob with `structure_size = 0` but a supported version header
`(1,0)` decodes successfully — `read_with_mmap` parses straight from the
mapped bytes and never validates `structure_size`. -/
theorem c2_mmap_skips_size_validation :
    u16at ([0, 0, 1, 0] ++ List.replicate 92 0) 0 = 0
  ∧ read_with_mmap ([0, 0, 1, 0] ++ List.replicate 92 0)
      = .ok (.v1 (v1_record ⟨0, 1, 0⟩ (List.replicate 92 0))) := by
  exact ⟨rfl, rfl⟩

/-- C3: the synthetic 96-byte v1.0 blob with header `(96,1,0)` and bytes
12-13 equal to `(60, 0)` decodes successfully, and `get_temperature()` on
the result is `(60, "Edge")`. -/
theorem c3_edge_temperature_roundtrip :
    (parse_metrics_from_bytes
        ([96, 0, 1, 0] ++ [0, 0, 0, 0, 0, 0, 0, 0] ++ [60, 0]
          ++ List.replicate 82 0)).map Metrics.get_temperature
      = .ok (60, "Edge") := rfl

/-- C4: every successfully decoded v1 blob with content revision 0 leaves
all six optional fields absent, and every v1 blob with content revision 3
and at least 106 bytes decodes with all six present. -/
theorem c4_v1_optional_fields :
    (∀ (data : List Nat) (m : GpuMetricsV1),
        data.getD 2 0 = 1 → data.getD 3 0 = 0 →
        parse_metrics_from_bytes data = .ok (.v1 m) →
        m.gfx_voltage = none ∧ m.soc_voltage = none ∧ m.mem_voltage = none
          ∧ m.indep_throttle_status = none ∧ m.current_socket_power = none
          ∧ m.vcn_activity = none)
  ∧ (∀ data : List Nat,
        data.getD 2 0 = 1 → data.getD 3 0 = 3 → 106 ≤ data.length →
        ∃ m : GpuMetricsV1,
          parse_metrics_from_bytes data = .ok (.v1 m)
            ∧ m.gfx_voltage.isSome ∧ m.soc_voltage.isSome
            ∧ m.mem_voltage.isSome ∧ m.indep_throttle_status.isSome
            ∧ m.current_socket_power.isSome ∧ m.vcn_activity.isSome) := by
  constructor
  · intro data m hf hc hp
    by_cases h4 : data.length < 4
    · simp [parse_metrics_from_bytes, h4] at hp
    · simp only [parse_metrics_from_bytes, if_neg h4] at hp
      rw [hf, hc] at hp
      have hsup : Header.is_supported ⟨u16at data 0, 1, 0⟩ = true := by
        simp [Header.is_supported]
      rw [hsup] at hp
      simp only [not_true, if_false, Bool.true_eq_false,
        not_false_eq_true, if_true] at hp
      by_cases h92 : (List.drop 4 data).length < 92
      · simp only [parse_v1_metrics] at hp
        rw [if_pos h92] at hp
        exact absurd hp (by simp)
      · rw [parse_v1_metrics_eq _ _ (by omega)] at hp
        simp only [Except.ok.injEq, Metrics.v1.injEq] at hp
        subst hp
        simp [v1_record]
  · intro data hf hc hlen
    have h4 : ¬ data.length < 4 := by omega
    have hd : (List.drop 4 data).length = data.length - 4 := by simp
    have h92 : 92 ≤ (List.drop 4 data).length := by omega
    refine ⟨v1_record ⟨u16at data 0, 1, 3⟩ (data.drop 4), ?_, ?_⟩
    · simp only [parse_metrics_from_bytes, if_neg h4]
      rw [hf, hc]
      have hsup : Header.is_supported ⟨u16at data 0, 1, 3⟩ = true := by
        simp [Header.is_supported]
      rw [hsup]
      simp only [not_true, if_false, Bool.true_eq_false,
        not_false_eq_true, if_true]
      exact parse_v1_metrics_eq _ _ h92
    · have h82 : 82 ≤ data.length - 4 := by omega
      have h90 : 90 ≤ data.length - 4 := by omega
      have h102 : 102 ≤ data.length - 4 := by omega
      simp [v1_record, h82, h90, h102]

/-- C4 witness: a 96-byte v1.0 blob (all six fields absent) and a 108-byte
v1.3 blob (all six fields present). -/
theorem c4_v1_optional_fields_witness :
    ((v1_record ⟨96, 1, 0⟩ (([96, 0, 1, 0] ++ List.replicate 92 0).drop 4)).gfx_voltage = none
      ∧ (v1_record ⟨96, 1, 0⟩ (([96, 0, 1, 0] ++ List.replicate 92 0).drop 4)).soc_voltage = none
      ∧ (v1_record ⟨96, 1, 0⟩ (([96, 0, 1, 0] ++ List.replicate 92 0).drop 4)).mem_voltage = none
      ∧ (v1_record ⟨96, 1, 0⟩ (([96, 0, 1, 0] ++ List.replicate 92 0).drop 4)).indep_throttle_status = none
      ∧ (v1_record ⟨96, 1, 0⟩ (([96, 0, 1, 0] ++ List.replicate 92 0).drop 4)).current_socket_power = none
      ∧ (v1_record ⟨96, 1, 0⟩ (([96, 0, 1, 0] ++ List.replicate 92 0).drop 4)).vcn_activity = none)
  ∧ (∃ m : GpuMetricsV1,
      parse_metrics_from_bytes ([108, 0, 1, 3] ++ List.replicate 104 0) = .ok (.v1 m)
        ∧ m.gfx_voltage.isSome ∧ m.soc_voltage.isSome
        ∧ m.mem_voltage.isSome ∧ m.indep_throttle_status.isSome
        ∧ m.current_socket_power.isSome ∧ m.vcn_activity.isSome) :=
  ⟨c4_v1_optional_fields.1 ([96, 0, 1, 0] ++ List.replicate 92 0) _
     (by decide) (by decide) (by rfl),
   c4_v1_optional_fields.2 ([108, 0, 1, 3] ++ List.replicate 104 0)
     (by decide) (by decide) (by decide)⟩

/-- C5: the sensor facade's bounded recovery (gpu.rs:468).  On an underlying
failure, the stale cached metrics are returned exactly when a last successful
read is cached, its age is under 10 seconds, and the consecutive-failure
count including this failure is at most 3; beyond the age window, beyond the
failure count, or with no cached value, the error is propagated; and any
successful read resets the consecutive-failure count to zero. -/
theorem c5_recovery_policy :
    (∀ (s : SensorState) (e : GpuError) (now : Nat) (m : Metrics) (t : Nat),
        s.last_metrics = some (m, t) → now - t < recovery_max_age →
        s.consecutive_errors + 1 ≤ 3 →
        (read_metrics_with_recovery s (.error e) now).1 = .ok m)
  ∧ (∀ (s : SensorState) (e : GpuError) (now : Nat),
        3 < s.consecutive_errors + 1 →
        (read_metrics_with_recovery s (.error e) now).1 = .error e)
  ∧ (∀ (s : SensorState) (e : GpuError) (now : Nat) (m : Metrics) (t : Nat),
        s.last_metrics = some (m, t) → recovery_max_age ≤ now - t →
        (read_metrics_with_recovery s (.error e) now).1 = .error e)
  ∧ (∀ (s : SensorState) (e : GpuError) (now : Nat),
        s.last_metrics = none →
        (read_metrics_with_recovery s (.error e) now).1 = .error e)
  ∧ (∀ (s : SensorState) (m : Metrics) (now : Nat),
        (read_metrics_with_recovery s (.ok m) now).2.consecutive_errors = 0
          ∧ (read_metrics_with_recovery s (.ok m) now).1 = .ok m) := by
  refine ⟨?_, ?_, ?_, ?_, ?_⟩
  · intro s e now m t hlm hage hcnt
    simp [read_metrics_with_recovery, hlm, hage, hcnt]
  · intro s e now hcnt
    have h : ¬ (s.consecutive_errors + 1 ≤ 3) := by omega
    simp [read_metrics_with_recovery, h]
  · intro s e now m t hlm hage
    have h : ¬ (now - t < recovery_max_age) := by omega
    by_cases hc : s.consecutive_errors + 1 ≤ 3 <;>
      simp [read_metrics_with_recovery, hlm, h, hc]
  · intro s e now hlm
    by_cases hc : s.consecutive_errors + 1 ≤ 3 <;>
      simp [read_metrics_with_recovery, hlm, hc]
  · intro s m now
    simp [read_metrics_with_recovery]

/-- A concrete metrics value for the cache/recovery witnesses. -/
def sample_metrics : Metrics :=
  .v1 (v1_record ⟨96, 1, 0⟩ (List.replicate 92 0))

/-- C5 witness: concrete states at each branch of the recovery policy. -/
theorem c5_recovery_policy_witness :
    (read_metrics_with_recovery ⟨0, none, some (sample_metrics, 0)⟩
        (.error .ioError) 5000).1 = .ok sample_metrics
  ∧ (read_metrics_with_recovery ⟨3, none, some (sample_metrics, 0)⟩
        (.error .ioError) 5000).1 = .error .ioError
  ∧ (read_metrics_with_recovery ⟨0, none, some (sample_metrics, 0)⟩
        (.error .ioError) 20000).1 = .error .ioError
  ∧ (read_metrics_with_recovery ⟨0, none, none⟩
        (.error .ioError) 5000).1 = .error .ioError
  ∧ (read_metrics_with_recovery ⟨7, some 3, none⟩
        (.ok sample_metrics) 5000).2.consecutive_errors = 0 :=
  ⟨c5_recovery_policy.1 _ .ioError 5000 sample_metrics 0 rfl (by decide) (by decide),
   c5_recovery_policy.2.1 _ .ioError 5000 (by decide),
   c5_recovery_policy.2.2.1 _ .ioError 20000 sample_metrics 0 rfl (by decide),
   c5_recovery_policy.2.2.2.1 _ .ioError 5000 rfl,
   (c5_recovery_policy.2.2.2.2 _ sample_metrics 5000).1⟩

/-- C6: under `Basic{max_age}`, a cached entry younger than `max_age` is
returned as-is without performing the underlying read and without touching
the cache slot; otherwise the underlying read runs and, when it succeeds,
the entry is replaced wholesale by the fresh metrics stamped `now`. -/
theorem c6_basic_cache :
    (∀ (max_age : Nat) (c : CachedMetrics) (now : Nat)
        (fresh : Except GpuError Metrics),
        now - c.timestamp < max_age →
        read_file (.basic max_age) (some c) now fresh
          = (.ok c.metrics, some c, false))
  ∧ (∀ (max_age : Nat) (cache : Option CachedMetrics) (now : Nat)
        (fresh : Except GpuError Metrics) (m : Metrics),
        (∀ c, cache = some c → max_age ≤ now - c.timestamp) →
        fresh = .ok m →
        ∃ rc, read_file (.basic max_age) cache now fresh
          = (.ok m, some ⟨m, now, rc, now⟩, true)) := by
  constructor
  · intro max_age c now fresh h
    simp [read_file, check_cache, h]
  · intro max_age cache now fresh m hmiss hfresh
    subst hfresh
    match cache with
    | none =>
      exact ⟨1, by simp [read_file, check_cache, update_cache]⟩
    | some c =>
      have h : ¬ (now - c.timestamp < max_age) := by
        have := hmiss c rfl
        omega
      exact ⟨c.read_count + 1, by simp [read_file, check_cache, update_cache, h]⟩

/-- C6 witness: a fresh cache hit and a cold-cache refresh. -/
theorem c6_basic_cache_witness :
    read_file (.basic 500) (some ⟨sample_metrics, 0, 1, 0⟩) 100 (.error .ioError)
      = (.ok sample_metrics, some ⟨sample_metrics, 0, 1, 0⟩, false)
  ∧ ∃ rc, read_file (.basic 500) none 7 (.ok sample_metrics)
      = (.ok sample_metrics, some ⟨sample_metrics, 7, rc, 7⟩, true) :=
  ⟨c6_basic_cache.1 500 ⟨sample_metrics, 0, 1, 0⟩ 100 (.error .ioError) (by decide),
   c6_basic_cache.2 500 none 7 (.ok sample_metrics) sample_metrics
     (by intro c hc; cases hc) rfl⟩

/-- C7: `severity()` is the count of named-table flags set in the status
word divided by the 13-entry table size, and a status word whose set bits
all lie outside the named table reports `is_throttling()` true yet a
severity of 0. -/
theorem c7_severity_counts_named_flags :
    (∀ v : Nat, ThrottleStatus.severity v =
        ((THROTTLE_FLAGS.filter (fun p => decide (v &&& p.2 ≠ 0))).length : ℚ) / 13)
  ∧ (∀ v : Nat, v ≠ 0 → (∀ p ∈ THROTTLE_FLAGS, v &&& p.2 = 0) →
        ThrottleStatus.is_throttling v = true ∧ ThrottleStatus.severity v = 0) := by
  constructor
  · intro v
    unfold ThrottleStatus.severity ThrottleStatus.active_flags
    rw [List.length_map]
    norm_num [THROTTLE_FLAGS]
  · intro v hv hall
    have hemp : ThrottleStatus.active_flags v = [] := by
      unfold ThrottleStatus.active_flags
      rw [List.map_eq_nil_iff, List.filter_eq_nil_iff]
      intro p hp
      simp [hall p hp]
    constructor
    · simp [ThrottleStatus.is_throttling, hv]
    · unfold ThrottleStatus.severity
      rw [hemp]
      simp

/-- C7 witness: the status word `4` (bit 2, outside the named table). -/
theorem c7_severity_counts_named_flags_witness :
    ThrottleStatus.is_throttling 4 = true ∧ ThrottleStatus.severity 4 = 0 :=
  c7_severity_counts_named_flags.2 4 (by decide) (by decide)

/-- A parse-error reason mentions insufficient data exactly when it starts
with the words "Insufficient data" — every such message of the reader does.
Stated over character lists so the check evaluates by `decide`. -/
def mentions_insufficient_data (r : String) : Bool :=
  "Insufficient data".data.isPrefixOf r.data

/-- C8, corrected part: every 4-byte input (header only) fails decoding with
a Parse error, and the reason mentions insufficient data whenever the header
version pair has a layout parser (`(1,0..=3)` or `(2,0..=1)`). -/
theorem c8_header_only_always_fails (data : List Nat)
    (hl : data.length = 4) :
    ∃ r, parse_metrics_from_bytes data = .error (.metricsParsing r)
      ∧ (spec_supported_pair (data.getD 2 0) (data.getD 3 0) →
          mentions_insufficient_data r = true) := by
  have hlt : ¬ data.length < 4 := by omega
  have hdrop : List.drop 4 data = [] := by
    apply List.drop_eq_nil_of_le
    omega
  by_cases hs : Header.is_supported
      ⟨u16at data 0, data.getD 2 0, data.getD 3 0⟩ = true
  · have hs' := hs
    simp only [Header.is_supported, decide_eq_true_eq] at hs'
    rcases hs' with ⟨hf, hc⟩ | ⟨hf, hc⟩ | ⟨hf, hc⟩
    · refine ⟨"Insufficient data for v1.x metrics", ?_, fun _ => by decide⟩
      simp only [parse_metrics_from_bytes, if_neg hlt]
      rw [hs, hf, hdrop]
      rfl
    · refine ⟨"Insufficient data for v2.x metrics", ?_, fun _ => by decide⟩
      simp only [parse_metrics_from_bytes, if_neg hlt]
      rw [hs, hf, hdrop]
      rfl
    · refine ⟨"Unsupported format version: v"
          ++ toString (data.getD 2 0) ++ "." ++ toString (data.getD 3 0),
        ?_, fun hp => absurd hp ?_⟩
      · simp only [parse_metrics_from_bytes, if_neg hlt]
        rw [hs, hf]
        rfl
      · unfold spec_supported_pair
        omega
  · refine ⟨"Unsupported GPU metrics version: "
        ++ Header.version ⟨u16at data 0, data.getD 2 0, data.getD 3 0⟩,
      ?_, fun hp => absurd ?_ hs⟩
    · simp only [parse_metrics_from_bytes, if_neg hlt]
      rw [if_pos hs]
    · simp only [Header.is_supported, decide_eq_true_eq]
      unfold spec_supported_pair at hp
      tauto

/-- C8 witness: the header-only supported blob `(96, 0, 1, 0)`. -/
theorem c8_header_only_always_fails_witness :
    ∃ r, parse_metrics_from_bytes [96, 0, 1, 0] = .error (.metricsParsing r)
      ∧ (spec_supported_pair ([96, 0, 1, 0].getD 2 0) ([96, 0, 1, 0].getD 3 0) →
          mentions_insufficient_data r = true) :=
  c8_header_only_always_fails [96, 0, 1, 0] rfl

/-- C8 counterexample: the claim fails for headers without a layout parser —
the 4-byte input `(4, 0, 9, 9)` fails with an unsupported-version reason
that does not mention insufficient data. -/
theorem c8_not_all_reasons_mention_insufficient_data :
    parse_metrics_from_bytes [4, 0, 9, 9]
      = .error (.metricsParsing "Unsupported GPU metrics version: v9.9")
  ∧ mentions_insufficient_data "Unsupported GPU metrics version: v9.9" = false := by
  exact ⟨rfl, by decide⟩

/-- C9: `parse_metrics_from_bytes` is total and panic-free — on every byte
sequence it returns either a metrics value or a `metricsParsing` error, and
in particular no fixed-offset read (including the `content_revision >= 2`
reads guarded only by `data.len() >= 90` but actually covered by the base
check `data.len() >= 92`) ever indexes out of bounds. -/
theorem c9_parse_total_and_panic_free (data : List Nat) :
    (∃ m, parse_metrics_from_bytes data = .ok m)
  ∨ (∃ r, parse_metrics_from_bytes data = .error (.metricsParsing r)) := by
  by_cases h4 : data.length < 4
  · exact Or.inr ⟨"Insufficient data for header",
      by simp [parse_metrics_from_bytes, h4]⟩
  · by_cases hs : Header.is_supported
        ⟨u16at data 0, data.getD 2 0, data.getD 3 0⟩ = true
    · have hs' := hs
      simp only [Header.is_supported, decide_eq_true_eq] at hs'
      rcases hs' with ⟨hf, _⟩ | ⟨hf, _⟩ | ⟨hf, _⟩
      · by_cases h92 : (List.drop 4 data).length < 92
        · refine Or.inr ⟨"Insufficient data for v1.x metrics", ?_⟩
          simp only [parse_metrics_from_bytes, if_neg h4]
          rw [hs, hf]
          simp only [parse_v1_metrics]
          rw [if_pos h92]
          rfl
        · refine Or.inl ⟨.v1 (v1_record ⟨u16at data 0, 1, data.getD 3 0⟩
              (List.drop 4 data)), ?_⟩
          simp only [parse_metrics_from_bytes, if_neg h4]
          rw [hs, hf]
          exact parse_v1_metrics_eq _ _ (by omega)
      · by_cases h116 : (List.drop 4 data).length < 116
        · refine Or.inr ⟨"Insufficient data for v2.x metrics", ?_⟩
          simp only [parse_metrics_from_bytes, if_neg h4]
          rw [hs, hf]
          simp only [parse_v2_metrics]
          rw [if_pos h116]
          rfl
        · refine Or.inl ⟨.v2 (v2_record ⟨u16at data 0, 2, data.getD 3 0⟩
              (List.drop 4 data)), ?_⟩
          simp only [parse_metrics_from_bytes, if_neg h4]
          rw [hs, hf]
          exact parse_v2_metrics_eq _ _ (by omega)
      · refine Or.inr ⟨"Unsupported format version: v"
            ++ toString (data.getD 2 0) ++ "." ++ toString (data.getD 3 0), ?_⟩
        simp only [parse_metrics_from_bytes, if_neg h4]
        rw [hs, hf]
        rfl
    · refine Or.inr ⟨"Unsupported GPU metrics version: "
          ++ Header.version ⟨u16at data 0, data.getD 2 0, data.getD 3 0⟩, ?_⟩
      simp only [parse_metrics_from_bytes, if_neg h4]
      rw [if_pos hs]

/-- C10: `is_supported()` accepts `(3,0)` (structure size is irrelevant to
it), yet every input carrying header version `(3,0)` fails
`parse_metrics_from_bytes` with the unsupported-format-version error,
because only format revisions 1 and 2 have layout parsers. -/
theorem c10_supported_pair_not_dispatched :
    (∀ s : Nat, Header.is_supported ⟨s, 3, 0⟩ = true)
  ∧ (∀ data : List Nat, 4 ≤ data.length →
      data.getD 2 0 = 3 → data.getD 3 0 = 0 →
      parse_metrics_from_bytes data =
        .error (.metricsParsing "Unsupported format version: v3.0")) := by
  constructor
  · intro s
    simp [Header.is_supported]
  · intro data h4 hf hc
    have hlt : ¬ data.length < 4 := by omega
    simp only [parse_metrics_from_bytes, if_neg hlt]
    rw [hf, hc]
    have hsup : Header.is_supported ⟨u16at data 0, 3, 0⟩ = true := by
      simp [Header.is_supported]
    rw [hsup]
    rfl

/-- C10 witness: the concrete 8-byte blob with header `(8, 3, 0)`. -/
theorem c10_supported_pair_not_dispatched_witness :
    Header.is_supported ⟨8, 3, 0⟩ = true
  ∧ parse_metrics_from_bytes [8, 0, 3, 0, 0, 0, 0, 0] =
      .error (.metricsParsing "Unsupported format version: v3.0") :=
  ⟨c10_supported_pair_not_dispatched.1 8,
   c10_supported_pair_not_dispatched.2 [8, 0, 3, 0, 0, 0, 0, 0]
     (by decide) rfl rfl⟩

end Waysensor
